import Mathlib

/-!
Verification development for the LimbGuard-Cortex assessment pipeline.

The backend pipeline (Classifier Adapter, Advice Lookup, Evidence Retriever,
Assessment Orchestrator) is modelled from the specification, since the backend
Python sources are not part of the checked tree; the frontend TypeScript
(`api.ts`, `ImageUploader.tsx`, `ResultsPanel.tsx`, `types.ts`) is embedded
directly from its source.
-/

namespace LimbGuard

/-- The five-element classification label domain (spec §3). -/
inductive Label where
  | normal
  | grade_1
  | grade_2
  | grade_3
  | grade_4
deriving DecidableEq, Repr

/-- The fixed ordered urgency set LOW < MODERATE < HIGH < CRITICAL (spec §4.2). -/
inductive Urgency where
  | LOW
  | MODERATE
  | HIGH
  | CRITICAL
deriving DecidableEq, Repr

/-- Numeric rank of an urgency value in the fixed order. -/
def Urgency.rank : Urgency → Nat
  | .LOW => 0
  | .MODERATE => 1
  | .HIGH => 2
  | .CRITICAL => 3

/-- Advice Record (spec §3): status and urgency, clinical-action fields for
abnormal labels, preventive-care fields for the normal label. -/
structure AdviceRecord where
  status : Option String := none
  urgency : Option Urgency := none
  recommended_action : Option String := none
  home_care : Option String := none
  sugar_maintenance : Option String := none
  skin_care : Option String := none
  footwear : Option String := none
  scheduling : Option String := none
deriving DecidableEq, Repr

/-- An advice record is non-empty when at least one field is populated. -/
def AdviceRecord.isNonEmpty (r : AdviceRecord) : Bool :=
  r.status.isSome || r.urgency.isSome || r.recommended_action.isSome ||
  r.home_care.isSome || r.sugar_maintenance.isSome || r.skin_care.isSome ||
  r.footwear.isSome || r.scheduling.isSome

/-- Modelled from the spec: the Advice Lookup static table
(`backend/src/nlp/advisor.py` is absent from the checked tree). Spec §4.2:
normal maps to preventive-care fields, grade_1..grade_4 map to clinical-action
fields with urgency scaling LOW, MODERATE, HIGH, CRITICAL; example strings
follow the backend README sample response. -/
def advise : Label → AdviceRecord
  | .normal =>
    { status := some "Foot appears healthy."
      sugar_maintenance := some "Keep blood glucose within the target range."
      skin_care := some "Inspect and moisturize the feet daily."
      footwear := some "Wear well-fitting shoes and clean socks."
      scheduling := some "Schedule a routine foot exam every year." }
  | .grade_1 =>
    { status := some "Gangrene detected - grade 1."
      urgency := some .LOW
      recommended_action := some "A superficial ulcer has been detected. See a clinician within two weeks."
      home_care := some "Keep the area clean and dry; avoid pressure on the wound." }
  | .grade_2 =>
    { status := some "Gangrene detected - grade 2."
      urgency := some .MODERATE
      recommended_action := some "A deeper wound has been detected. See a clinician within days."
      home_care := some "Keep the wound covered with a sterile, moist dressing." }
  | .grade_3 =>
    { status := some "Gangrene detected - grade 3."
      urgency := some .HIGH
      recommended_action := some "A deep ulcer with possible abscess has been detected. Seek urgent care."
      home_care := some "Do not bear weight on the foot; keep the dressing sterile." }
  | .grade_4 =>
    { status := some "Gangrene detected - grade 4."
      urgency := some .CRITICAL
      recommended_action := some "Gangrene of the forefoot has been detected. Go to an emergency department now."
      home_care := some "Do not delay; emergency surgical evaluation is required." }

/-- The abnormal grade labels in ascending grade order. -/
def gradeLabels : List Label := [.grade_1, .grade_2, .grade_3, .grade_4]

/-- Rank of the urgency assigned to a label by the advice table (0 when none). -/
def urgencyRank (l : Label) : Nat :=
  match (advise l).urgency with
  | some u => u.rank
  | none => 0

/-- Whether the first character list is an initial segment of the second. -/
def headMatches : List Char → List Char → Bool
  | [], _ => true
  | _ :: _, [] => false
  | a :: as, b :: bs => a == b && headMatches as bs

/-- Whether the pattern occurs as a contiguous sublist. -/
def containsL (pat : List Char) : List Char → Bool
  | [] => headMatches pat []
  | c :: rest => headMatches pat (c :: rest) || containsL pat rest

/-- The characters of a string, lowercased. -/
def lowerChars (s : String) : List Char :=
  s.data.map Char.toLower

/-- Modelled from the spec: the demo-mode filename keyword table (spec §4.1,
filenames containing a grade keyword map to that grade). -/
def demoKeywords : List (String × Label) :=
  [("grade1", .grade_1), ("grade2", .grade_2), ("grade3", .grade_3), ("grade4", .grade_4)]

/-- Modelled from the spec: demo-mode labeling derives the label from a
substring match of the uploaded filename against the keyword table, defaulting
to normal when no keyword matches (spec §4.1). -/
def demoLabel (filename : String) : Label :=
  match demoKeywords.find? (fun kw => containsL kw.1.data (lowerChars filename)) with
  | some kw => kw.2
  | none => .normal

/-- Demo-mode confidence is a constant placeholder (spec §4.1). -/
def demoConfidence : Nat := 0

/-- An uploaded image: raw bytes plus whether they decode as an image. -/
structure Image where
  bytes : List Nat
  valid : Bool

/-- The error taxonomy of spec §7 that can reach the pipeline at request time. -/
inductive PipelineError where
  | invalidInput
  | retrievalFailure
deriving DecidableEq, Repr

/-- Modelled from the spec: the per-process state fixed at startup (spec §4.4):
the classifier mode flag, the retriever index flag, and the two read-only
artifacts abstracted as oracles (the trained forward pass and the index
top-K lookup, both delegated to external libraries). -/
structure SystemState where
  demoMode : Bool
  ragIndexAvailable : Bool
  realModel : List Nat → Label × Nat
  queryIdx : Label → Except PipelineError (Option String)

/-- Modelled from the spec: Classifier Adapter `classify` (spec §4.1). In demo
mode the label comes from the filename keyword table and never fails; in real
mode a malformed image fails with InvalidInputError, otherwise the cached
model runs one forward pass. -/
def classify (st : SystemState) (img : Image) (filename : String) :
    Except PipelineError (Label × Nat) :=
  if st.demoMode then
    Except.ok (demoLabel filename, demoConfidence)
  else if img.valid then
    Except.ok (st.realModel img.bytes)
  else
    Except.error .invalidInput

/-- Modelled from the spec: Evidence Retriever `retrieve` (spec §4.3): label
normal short-circuits to absent; a missing index disables retrieval for the
process lifetime; otherwise the index is queried, which may fail with
RetrievalError. -/
def retrieve (st : SystemState) (l : Label) : Except PipelineError (Option String) :=
  if l = Label.normal then Except.ok none
  else if st.ragIndexAvailable then st.queryIdx l
  else Except.ok none

/-- Modelled from the spec: the Orchestrator treats a retriever failure as
"no guidance available", never surfacing it to the caller (spec §4.3, §7). -/
def safeGuidance (st : SystemState) (l : Label) : Option String :=
  match retrieve st l with
  | Except.ok g => g
  | Except.error _ => none

/-- Human-readable display name of a label. -/
def displayName : Label → String
  | .normal => "Normal"
  | .grade_1 => "Grade 1"
  | .grade_2 => "Grade 2"
  | .grade_3 => "Grade 3"
  | .grade_4 => "Grade 4"

/-- Response Record (spec §3, §6): success, demo_mode, classification,
display_name, advice, rag_guidance. -/
structure ResponseRecord where
  success : Bool
  demo_mode : Bool
  classification : Label
  display_name : String
  advice : AdviceRecord
  rag_guidance : Option String
deriving DecidableEq, Repr

/-- Modelled from the spec: Assessment Orchestrator `assess` (spec §4.4):
classify, then advice lookup and retrieval with the resulting label, then
assemble the response with the process-wide demo_mode flag. -/
def assess (st : SystemState) (img : Image) (filename : String) :
    Except PipelineError ResponseRecord :=
  match classify st img filename with
  | Except.error e => Except.error e
  | Except.ok (l, _) =>
    Except.ok
      { success := true
        demo_mode := st.demoMode
        classification := l
        display_name := displayName l
        advice := advise l
        rag_guidance := safeGuidance st l }

/-- Modelled from the spec: one request step returning the response together
with the process state afterwards; the mode flags are sticky for the process
lifetime, so the state is unchanged (spec §3, §4.4, §5). -/
def assessStep (st : SystemState) (img : Image) (filename : String) :
    Except PipelineError ResponseRecord × SystemState :=
  (assess st img filename, st)

/-- A failed axios request: the promise rejected (network-level failure,
non-2xx HTTP status, or a malformed response). -/
inductive ApiFailure where
  | networkError
  | httpStatus (code : Nat)
  | malformedResponse
deriving DecidableEq, Repr

/-- The parsed body of a successful GET /demo response (`types.ts`). -/
structure DemoPayload where
  demo_mode : Bool
deriving DecidableEq, Repr

/-- Embedded from `src/frontend/src/services/api.ts` `checkDemoMode`: return
the demo_mode field of the response on success, and true from the catch
handler on any failure. -/
def checkDemoMode (outcome : Except ApiFailure DemoPayload) : Bool :=
  match outcome with
  | Except.error _ => true
  | Except.ok d => d.demo_mode

/-- A JavaScript File object as constructed by the frontend: name, MIME type,
content bytes. -/
structure JsFile where
  name : String
  mimeType : String
  content : List Nat
deriving DecidableEq, Repr

/-- Embedded from `src/frontend/src/components/ImageUploader.tsx`
`captureImage`: the canvas blob is wrapped in a File with the constant name
camera-capture.jpg and type image/jpeg. -/
def captureImage (blob : List Nat) : JsFile :=
  { name := "camera-capture.jpg", mimeType := "image/jpeg", content := blob }

/-- Embedded from `src/frontend/src/types.ts` interface Advice: all fields
optional strings. -/
structure Advice where
  status : Option String := none
  urgency : Option String := none
  recommended_action : Option String := none
  action : Option String := none
  home_care : Option String := none
  sugar_maintenance : Option String := none
  skin_care : Option String := none
  footwear : Option String := none
  scheduling : Option String := none
deriving DecidableEq, Repr

/-- Embedded from `src/frontend/src/types.ts` interface PredictionResult. -/
structure PredictionResult where
  success : Bool
  demo_mode : Bool
  classification : String
  display_name : String
  advice : Advice
  rag_guidance : Option String := none
deriving DecidableEq, Repr

/-- JavaScript truthiness of an optional string field: absent and the empty
string are falsy. -/
def jsTruthy : Option String → Bool
  | none => false
  | some s => !(s == "")

/-- Embedded from ResultsPanel.tsx: `isNormal` is whether the classification
string equals normal. -/
def isNormal (r : PredictionResult) : Bool :=
  r.classification == "normal"

/-- The six advice cards ResultsPanel can render. -/
inductive AdviceCard where
  | sugarMaintenanceCard
  | skinCareCard
  | footwearCard
  | schedulingCard
  | recommendedActionCard
  | homeCareCard
deriving DecidableEq, Repr

/-- Embedded from `ResultsPanel.tsx`: each card renders exactly when its JSX
guard holds — preventive cards require `isNormal` and a truthy field, clinical
cards require not `isNormal` and a truthy field. -/
def cardShown (r : PredictionResult) : AdviceCard → Bool
  | .sugarMaintenanceCard => isNormal r && jsTruthy r.advice.sugar_maintenance
  | .skinCareCard => isNormal r && jsTruthy r.advice.skin_care
  | .footwearCard => isNormal r && jsTruthy r.advice.footwear
  | .schedulingCard => isNormal r && jsTruthy r.advice.scheduling
  | .recommendedActionCard => !isNormal r && jsTruthy r.advice.recommended_action
  | .homeCareCard => !isNormal r && jsTruthy r.advice.home_care

/-- The preventive-care card group. -/
def preventiveCards : List AdviceCard :=
  [.sugarMaintenanceCard, .skinCareCard, .footwearCard, .schedulingCard]

/-- The clinical-action card group. -/
def clinicalCards : List AdviceCard :=
  [.recommendedActionCard, .homeCareCard]

/-- A demo-mode process state used to instantiate theorems at a concrete
input. -/
def demoState : SystemState :=
  { demoMode := true
    ragIndexAvailable := true
    realModel := fun _ => (Label.normal, 0)
    queryIdx := fun _ => Except.ok (some "clinical guidance") }

/-- A live-mode process state with the index missing, used to instantiate
theorems at a concrete input. -/
def liveState : SystemState :=
  { demoMode := false
    ragIndexAvailable := false
    realModel := fun _ => (Label.grade_3, 91)
    queryIdx := fun _ => Except.ok none }

/-- A concrete well-formed image. -/
def goodImage : Image := { bytes := [1, 2, 3], valid := true }

/-- A concrete malformed upload. -/
def badImage : Image := { bytes := [255], valid := false }

end LimbGuard

namespace LimbGuard

/-- In demo mode, classification is the filename keyword lookup and never fails. -/
theorem classify_demo_eq (st : SystemState) (img : Image) (f : String)
    (h : st.demoMode = true) :
    classify st img f = Except.ok (demoLabel f, demoConfidence) := by
  simp [classify, h]

/-- A successful classification yields the assembled response record. -/
theorem assess_ok_of_classify_ok (st : SystemState) (img : Image) (f : String)
    (l : Label) (c : Nat) (h : classify st img f = Except.ok (l, c)) :
    assess st img f = Except.ok
      { success := true
        demo_mode := st.demoMode
        classification := l
        display_name := displayName l
        advice := advise l
        rag_guidance := safeGuidance st l } := by
  simp [assess, h]

/-- Guidance can only be present for an abnormal label with the index available. -/
theorem safeGuidance_isSome_conditions (st : SystemState) (l : Label)
    (h : (safeGuidance st l).isSome = true) :
    l ≠ Label.normal ∧ st.ragIndexAvailable = true := by
  by_cases hl : l = Label.normal
  · subst hl
    simp [safeGuidance, retrieve] at h
  · refine ⟨hl, ?_⟩
    by_cases hr : st.ragIndexAvailable = true
    · exact hr
    · simp [safeGuidance, retrieve, hl, hr] at h

/-- Guidance is absent for the normal label or when the index is unavailable. -/
theorem safeGuidance_eq_none_of (st : SystemState) (l : Label)
    (h : l = Label.normal ∨ st.ragIndexAvailable = false) :
    safeGuidance st l = none := by
  rcases h with h | h
  · simp [safeGuidance, retrieve, h]
  · by_cases hl : l = Label.normal
    · simp [safeGuidance, retrieve, hl]
    · simp [safeGuidance, retrieve, hl, h]

end LimbGuard

namespace LimbGuard

/-- The response produced by assessing the Scenario A filename in demo mode
with the index available, used to instantiate the C2 theorem. -/
def c2Response : ResponseRecord :=
  { success := true
    demo_mode := true
    classification := Label.grade_2
    display_name := "Grade 2"
    advice := advise Label.grade_2
    rag_guidance := some "clinical guidance" }

/-- Claim C1: advise is defined on every label of the five-element domain and
returns a non-empty record; every grade label carries an urgency from the
ordered set, and the urgency rank is monotonically non-decreasing from
grade_1 to grade_4. -/
theorem advise_total_nonempty_urgency_monotone :
    (∀ l : Label, (advise l).isNonEmpty = true) ∧
    (gradeLabels.all (fun l => ((advise l).urgency).isSome)) = true ∧
    List.Pairwise (fun a b => urgencyRank a ≤ urgencyRank b) gradeLabels := by
  refine ⟨?_, ?_, ?_⟩
  · intro l
    cases l <;> rfl
  · rfl
  · decide

/-- Claim C2: in every response produced by assess, rag_guidance is populated
only when the label is not normal and the retrieval index is available, and it
is none whenever the label is normal or the index is unavailable, for every
classifier mode. -/
theorem assess_rag_guidance_only_abnormal_with_index (st : SystemState)
    (img : Image) (f : String) (r : ResponseRecord)
    (h : assess st img f = Except.ok r) :
    (r.rag_guidance.isSome = true →
      r.classification ≠ Label.normal ∧ st.ragIndexAvailable = true) ∧
    ((r.classification = Label.normal ∨ st.ragIndexAvailable = false) →
      r.rag_guidance = none) := by
  unfold assess at h
  cases hc : classify st img f with
  | error e =>
    rw [hc] at h
    exact absurd h (by simp)
  | ok p =>
    obtain ⟨l, c⟩ := p
    rw [hc] at h
    simp only [Except.ok.injEq] at h
    subst h
    exact ⟨fun hs => safeGuidance_isSome_conditions st l hs,
           fun hcase => safeGuidance_eq_none_of st l hcase⟩

/-- Instantiation of the C2 theorem on a concrete demo-mode state and the
Scenario A filename. -/
theorem assess_rag_guidance_only_abnormal_with_index_witness :
    c2Response.classification ≠ Label.normal ∧ demoState.ragIndexAvailable = true :=
  (assess_rag_guidance_only_abnormal_with_index demoState badImage
    "grade2_test.jpg" c2Response (by rfl)).1 (by rfl)

/-- Claim C3: retrieving for the normal label returns absent in every process
state, for every corpus and index lookup function and every index
availability flag. -/
theorem retrieve_normal_always_absent (st : SystemState) :
    retrieve st Label.normal = Except.ok none := by
  simp [retrieve]

end LimbGuard

namespace LimbGuard

/-- Claim C4: when the checkpoint artifact is absent (demo mode), classify
never fails for any image and filename, the returned label is one of the five
valid labels, and the assembled response carries demo_mode true. -/
theorem classify_demo_never_fails_valid_label (st : SystemState) (img : Image)
    (f : String) (h : st.demoMode = true) :
    classify st img f = Except.ok (demoLabel f, demoConfidence) ∧
    demoLabel f ∈ [Label.normal, Label.grade_1, Label.grade_2, Label.grade_3,
      Label.grade_4] ∧
    ∃ r, assess st img f = Except.ok r ∧ r.demo_mode = true ∧
      r.classification = demoLabel f := by
  have hcl := classify_demo_eq st img f h
  refine ⟨hcl, ?_, ?_⟩
  · cases demoLabel f <;> simp
  · exact ⟨_, assess_ok_of_classify_ok st img f (demoLabel f) demoConfidence hcl,
      h, rfl⟩

/-- Instantiation of the C4 theorem on a concrete demo-mode state, a malformed
upload and a keyword-free filename. -/
theorem classify_demo_never_fails_valid_label_witness :
    classify demoState badImage "foot.jpg" =
      Except.ok (demoLabel "foot.jpg", demoConfidence) ∧
    demoLabel "foot.jpg" ∈ [Label.normal, Label.grade_1, Label.grade_2,
      Label.grade_3, Label.grade_4] ∧
    ∃ r, assess demoState badImage "foot.jpg" = Except.ok r ∧
      r.demo_mode = true ∧ r.classification = demoLabel "foot.jpg" :=
  classify_demo_never_fails_valid_label demoState badImage "foot.jpg" rfl

/-- Claim C5: assess can only fail with InvalidInputError, and only for a
malformed upload in live mode; in every other case the caller receives a
well-formed response whose demo_mode flag equals the process-wide flag, so
degradation is signalled structurally rather than by an error. -/
theorem assess_errors_only_invalid_input (st : SystemState) (img : Image)
    (f : String) :
    (∀ e, assess st img f = Except.error e →
      e = PipelineError.invalidInput ∧ st.demoMode = false ∧ img.valid = false) ∧
    (st.demoMode = true ∨ img.valid = true →
      ∃ r, assess st img f = Except.ok r ∧ r.success = true ∧
        r.demo_mode = st.demoMode) := by
  constructor
  · intro e he
    cases hd : st.demoMode with
    | true =>
      rw [assess_ok_of_classify_ok st img f (demoLabel f) demoConfidence
        (classify_demo_eq st img f hd)] at he
      exact absurd he (by simp)
    | false =>
      cases hv : img.valid with
      | true =>
        have hcl : classify st img f = Except.ok (st.realModel img.bytes) := by
          simp [classify, hd, hv]
        rw [assess_ok_of_classify_ok st img f (st.realModel img.bytes).1
          (st.realModel img.bytes).2 (by rw [hcl])] at he
        exact absurd he (by simp)
      | false =>
        have hcl : classify st img f = Except.error PipelineError.invalidInput := by
          simp [classify, hd, hv]
        unfold assess at he
        rw [hcl] at he
        simp only [Except.error.injEq] at he
        exact ⟨he.symm, rfl, rfl⟩
  · intro hok
    rcases hok with hd | hv
    · exact ⟨_, assess_ok_of_classify_ok st img f (demoLabel f) demoConfidence
        (classify_demo_eq st img f hd), rfl, rfl⟩
    · cases hd : st.demoMode with
      | true =>
        exact ⟨_, assess_ok_of_classify_ok st img f (demoLabel f) demoConfidence
          (classify_demo_eq st img f hd), rfl, hd⟩
      | false =>
        have hcl : classify st img f = Except.ok (st.realModel img.bytes) := by
          simp [classify, hd, hv]
        exact ⟨_, assess_ok_of_classify_ok st img f (st.realModel img.bytes).1
          (st.realModel img.bytes).2 (by rw [hcl]), rfl, hd⟩

/-- Instantiation of the C5 theorem: a malformed upload in live mode yields
exactly InvalidInputError, and a demo-mode call on the same upload yields a
well-formed response. -/
theorem assess_errors_only_invalid_input_witness :
    (PipelineError.invalidInput = PipelineError.invalidInput ∧
      liveState.demoMode = false ∧ badImage.valid = false) ∧
    (∃ r, assess demoState badImage "foot.jpg" = Except.ok r ∧
      r.success = true ∧ r.demo_mode = demoState.demoMode) :=
  ⟨(assess_errors_only_invalid_input liveState badImage "foot.jpg").1
      PipelineError.invalidInput (by rfl),
   (assess_errors_only_invalid_input demoState badImage "foot.jpg").2
      (Or.inl rfl)⟩

end LimbGuard

namespace LimbGuard

/-- The response assessed for the filename grade1_foot.jpg in the concrete
demo-mode state, used to instantiate the C6 theorem. -/
def c6Response : ResponseRecord :=
  { success := true
    demo_mode := true
    classification := Label.grade_1
    display_name := "Grade 1"
    advice := advise Label.grade_1
    rag_guidance := some "clinical guidance" }

/-- Claim C6: in demo mode, two consecutive assessment steps on the same image
bytes and filename yield the same classification label; the first step leaves
the process state unchanged. -/
theorem assess_demo_idempotent_label (st : SystemState) (img : Image)
    (f : String) (a b : ResponseRecord) (_hdemo : st.demoMode = true)
    (h1 : (assessStep st img f).1 = Except.ok a)
    (h2 : (assessStep (assessStep st img f).2 img f).1 = Except.ok b) :
    a.classification = b.classification := by
  have hst : (assessStep st img f).2 = st := rfl
  rw [hst] at h2
  rw [h1] at h2
  simp only [Except.ok.injEq] at h2
  rw [h2]

/-- Instantiation of the C6 theorem on a concrete demo-mode state and a
keyword-matching filename. -/
theorem assess_demo_idempotent_label_witness :
    c6Response.classification = c6Response.classification :=
  assess_demo_idempotent_label demoState goodImage "grade1_foot.jpg"
    c6Response c6Response rfl (by rfl) (by rfl)

/-- Claim C7: in demo mode, a filename matching no entry of the keyword table
is classified normal, the response carries the preventive-care advice fields,
and rag_guidance is absent. -/
theorem demo_no_keyword_defaults_normal (st : SystemState) (img : Image)
    (f : String) (hdemo : st.demoMode = true)
    (hk : demoKeywords.find? (fun kw => containsL kw.1.data (lowerChars f)) = none) :
    ∃ r, assess st img f = Except.ok r ∧ r.classification = Label.normal ∧
      r.advice.sugar_maintenance.isSome = true ∧
      r.advice.skin_care.isSome = true ∧
      r.advice.footwear.isSome = true ∧
      r.advice.scheduling.isSome = true ∧
      r.rag_guidance = none := by
  have hl : demoLabel f = Label.normal := by
    simp [demoLabel, hk]
  have hcl := classify_demo_eq st img f hdemo
  rw [hl] at hcl
  refine ⟨_, assess_ok_of_classify_ok st img f Label.normal demoConfidence hcl,
    rfl, rfl, rfl, rfl, rfl, ?_⟩
  exact safeGuidance_eq_none_of st Label.normal (Or.inl rfl)

/-- Instantiation of the C7 theorem on the Scenario B filename foot.jpg. -/
theorem demo_no_keyword_defaults_normal_witness :
    ∃ r, assess demoState goodImage "foot.jpg" = Except.ok r ∧
      r.classification = Label.normal ∧
      r.advice.sugar_maintenance.isSome = true ∧
      r.advice.skin_care.isSome = true ∧
      r.advice.footwear.isSome = true ∧
      r.advice.scheduling.isSome = true ∧
      r.rag_guidance = none :=
  demo_no_keyword_defaults_normal demoState goodImage "foot.jpg" rfl (by rfl)

end LimbGuard

namespace LimbGuard

/-- A concrete prediction result used to instantiate the C10 theorem. -/
def c10Result : PredictionResult :=
  { success := true
    demo_mode := false
    classification := "normal"
    display_name := "Normal"
    advice := { sugar_maintenance := some "Keep blood glucose within the target range." }
    rag_guidance := none }

/-- Claim C8: the frontend checkDemoMode returns true on every failed GET
/demo request (network failure, non-2xx status, malformed response), returns
the server-reported demo_mode on success, and hence cannot distinguish an
unreachable backend from a backend genuinely in demo mode. -/
theorem checkDemoMode_true_on_any_failure :
    (∀ e : ApiFailure, checkDemoMode (Except.error e) = true) ∧
    (∀ d : DemoPayload, checkDemoMode (Except.ok d) = d.demo_mode) ∧
    checkDemoMode (Except.error ApiFailure.networkError) =
      checkDemoMode (Except.ok { demo_mode := true }) :=
  ⟨fun _ => rfl, fun _ => rfl, rfl⟩

/-- Claim C9: every camera capture is uploaded as a File with the constant
name camera-capture.jpg and type image/jpeg, independent of the captured
content, and that filename matches no demo-mode keyword, so it is classified
normal by the demo-mode filename classifier. -/
theorem captureImage_constant_filename (b1 b2 : List Nat) :
    (captureImage b1).name = "camera-capture.jpg" ∧
    (captureImage b1).mimeType = "image/jpeg" ∧
    (captureImage b1).name = (captureImage b2).name ∧
    demoLabel (captureImage b1).name = Label.normal :=
  ⟨rfl, rfl, rfl, by rfl⟩

/-- A shown preventive card forces the normal classification flag. -/
theorem shown_preventive_isNormal (r : PredictionResult) (c : AdviceCard)
    (hc : c ∈ preventiveCards) (hs : cardShown r c = true) :
    isNormal r = true := by
  simp only [preventiveCards, List.mem_cons, List.not_mem_nil, or_false] at hc
  rcases hc with rfl | rfl | rfl | rfl <;>
    exact (Bool.and_eq_true _ _ |>.mp hs).1

/-- A shown clinical card forces the non-normal classification flag. -/
theorem shown_clinical_not_isNormal (r : PredictionResult) (c : AdviceCard)
    (hc : c ∈ clinicalCards) (hs : cardShown r c = true) :
    isNormal r = false := by
  simp only [clinicalCards, List.mem_cons, List.not_mem_nil, or_false] at hc
  rcases hc with rfl | rfl <;>
  · have := (Bool.and_eq_true _ _ |>.mp hs).1
    simpa using this

/-- Claim C10: ResultsPanel shows each preventive-care card only when the
classification equals normal and each clinical-action card only when it does
not, so the two card groups are never rendered together, whatever fields the
advice record carries. -/
theorem resultsPanel_card_groups_exclusive (r : PredictionResult) :
    (∀ c ∈ preventiveCards, cardShown r c = true → r.classification = "normal") ∧
    (∀ c ∈ clinicalCards, cardShown r c = true → r.classification ≠ "normal") ∧
    (∀ cp ∈ preventiveCards, ∀ cc ∈ clinicalCards,
      ¬(cardShown r cp = true ∧ cardShown r cc = true)) := by
  refine ⟨?_, ?_, ?_⟩
  · intro c hc hs
    have := shown_preventive_isNormal r c hc hs
    simpa [isNormal] using this
  · intro c hc hs
    have := shown_clinical_not_isNormal r c hc hs
    simp only [isNormal] at this
    intro heq
    rw [heq] at this
    simp at this
  · intro cp hcp cc hcc hboth
    have h1 := shown_preventive_isNormal r cp hcp hboth.1
    have h2 := shown_clinical_not_isNormal r cc hcc hboth.2
    rw [h1] at h2
    exact Bool.noConfusion h2

/-- Instantiation of the C10 theorem on a concrete normal prediction with a
populated preventive field. -/
theorem resultsPanel_card_groups_exclusive_witness :
    c10Result.classification = "normal" :=
  (resultsPanel_card_groups_exclusive c10Result).1 AdviceCard.sugarMaintenanceCard
    (by decide) (by rfl)

end LimbGuard
